import Mathlib

/-!
Verification of the telemetry pipeline and per-request instrumentation of the
`flask-app/app.py` service (Flask + OpenTelemetry demo).

The handlers and the `before_request` / `after_request` middleware are embedded
directly from `src/flask-app/app.py`.  Library behaviour that the app wires in
but whose code is not part of the repository (the FlaskInstrumentor root span,
the LoggingHandler trace correlation, and the batch export processors) is
modelled from the specification, each such definition saying so in its doc
comment.

The execution of one request is modelled as an event trace interpreted by a
small state machine: a clock, a stack of open spans, the list of finished
spans, the emitted log records (stamped with the active span's ids), and the
list of metric operations.
-/

namespace OtelFlask

/-- Log severities used by the app (`logging.INFO`, `logging.ERROR`, ...). -/
inductive Severity where
  | debug
  | info
  | warn
  | error
deriving DecidableEq, Repr, BEq

/-- OpenTelemetry span status. -/
inductive SpanStatus where
  | unset
  | ok
  | error
deriving DecidableEq, Repr, BEq

/-- A finished span: identifiers, name, timestamps, status. -/
structure Span where
  name : String
  spanId : Nat
  parentSpanId : Option Nat
  startTime : Nat
  endTime : Nat
  status : SpanStatus
deriving DecidableEq, Repr

/-- A span that has been started and not yet ended. -/
structure OpenSpan where
  name : String
  spanId : Nat
  parentSpanId : Option Nat
  startTime : Nat
deriving DecidableEq, Repr

/-- A log record: severity, body, emission time and the correlation fields
(trace-id and span-id of the span active at emission, or `none`). -/
structure LogRecord where
  sev : Severity
  body : String
  time : Nat
  corr : Option (Nat × Nat)
deriving DecidableEq, Repr

/-- A metric operation issued to an instrument: a counter increment or a
histogram observation, with the metric name and its label set. -/
inductive MetricOp where
  | counterAdd (name : String) (amount : Int) (labels : List (String × String))
  | histRecord (name : String) (value : Int) (labels : List (String × String))
deriving DecidableEq, Repr

/-- Telemetry events a handler can perform, in program order. -/
inductive Event where
  | startSpan (name : String)
  | endSpan (status : SpanStatus)
  | log (sev : Severity) (body : String)
  | metric (op : MetricOp)
  | sleep (d : Nat)
deriving DecidableEq, Repr

/-- Interpreter state for one request: clock, span-id source, stack of open
spans (head = currently active), finished spans, logs, metric operations. -/
structure TState where
  clock : Nat
  nextSpanId : Nat
  stack : List OpenSpan
  spans : List Span
  logs : List LogRecord
  ops : List MetricOp
deriving Repr

/-- One step of the interpreter.  `startSpan` pushes a new active span whose
parent is the previously active span; `endSpan` pops it and records the
finished span; `log` stamps the record with the active span's (trace-id,
span-id) — `none` when no span is active (this is the LoggingHandler /
LogCorrelationBridge behaviour, modelled from the spec: the handler reads the
current span context and attaches trace-id/span-id, or leaves the fields empty
when there is no active span); `metric` appends the metric operation. -/
def step (tid : Nat) (st : TState) : Event → TState
  | .startSpan n =>
      { st with
        clock := st.clock + 1
        nextSpanId := st.nextSpanId + 1
        stack := ⟨n, st.nextSpanId, st.stack.head?.map (·.spanId), st.clock⟩ :: st.stack }
  | .endSpan status =>
      match st.stack with
      | [] => { st with clock := st.clock + 1 }
      | o :: rest =>
          { st with
            clock := st.clock + 1
            stack := rest
            spans := st.spans ++ [⟨o.name, o.spanId, o.parentSpanId, o.startTime, st.clock, status⟩] }
  | .log sev body =>
      { st with
        clock := st.clock + 1
        logs := st.logs ++ [⟨sev, body, st.clock, st.stack.head?.map (fun o => (tid, o.spanId))⟩] }
  | .metric op => { st with clock := st.clock + 1, ops := st.ops ++ [op] }
  | .sleep d => { st with clock := st.clock + d }

/-- Run the interpreter over a list of events. -/
def run (tid : Nat) (st : TState) : List Event → TState
  | [] => st
  | e :: es => run tid (step tid st e) es

/-- Python integer division as used in `1 / 0`: raises `ZeroDivisionError`
("division by zero") on a zero divisor. -/
def pyDiv (a b : Int) : Except String Int :=
  if b = 0 then .error "division by zero" else .ok (a / b)

/-- Model of `random.choice([True, False])`: a uniform two-valued pick,
driven by the parity of the seed. -/
def pyChoiceBool (seed : Nat) : Bool := seed % 2 = 0

/-- Model of `random.randint(lo, hi)`: inclusive on both ends. -/
def pyRandint (lo hi seed : Nat) : Nat := lo + seed % (hi + 1 - lo)

/-- Model of `random.choice([100, 200, 500])`. -/
def pyChoice3 (seed : Nat) : Nat := [100, 200, 500].getD (seed % 3) 100

/-- Result of one route handler: its telemetry events, response body and
HTTP status code. -/
structure HandlerResult where
  events : List Event
  body : String
  status : Nat
deriving DecidableEq, Repr

/-- The HTML body returned by the `/` route (the `html` literal in `hello`,
passed through `render_template_string`, which is the identity here since the
literal holds no template directives). -/
def helloHtml : String :=
  "\n        <html>\n        <head><title>Flask + OpenTelemetry Demo</title></head>\n        <body>\n            <h1>Flask + OpenTelemetry Demo</h1>\n            <ul>\n                <li><a href=\"/db\">/db</a> - Simulates a database operation.</li>\n                <li><a href=\"/compute\">/compute</a> - Performs a CPU-intensive computation.</li>\n                <li><a href=\"/error\">/error</a> - Simulates an error.</li>\n                <li><a href=\"/order\">/order</a> - Simulates placing an order.</li>\n                <li><a href=\"/pay\">/pay</a> - Simulates a payment attempt.</li>\n                <li><a href=\"/checkout\">/checkout</a> - Simulates a checkout with cart size.</li>\n                <li><a href=\"/buy\">/buy</a> - Simulates a purchase with revenue.</li>\n            </ul>\n            <p>Now exporting: <b>Traces</b>, <b>Logs</b>, <b>Metrics</b> → OTEL Collector → Tempo/Loki/Prometheus</p>\n        </body>\n        </html>\n        "

/-- Handler of `GET /` (`hello` in app.py). -/
def hello : HandlerResult :=
  { events :=
      [.startSpan "hello-span",
       .log .info "Received request at / endpoint",
       .endSpan .unset]
    body := helloHtml
    status := 200 }

/-- The deterministic value computed by `/compute`:
`sum(i * i for i in range(1, 1000))`. -/
def computeResult : Nat := ((List.range' 1 999).map (fun i => i * i)).sum

/-- Handler of `GET /compute` (`compute` in app.py); `d` is the random sleep
duration drawn from `random.uniform(0.1, 0.5)`. -/
def compute (d : Nat) : HandlerResult :=
  { events :=
      [.startSpan "compute-span",
       .log .info "Start compute simulation",
       .sleep d,
       .log .info ("Compute result: " ++ toString computeResult),
       .endSpan .unset]
    body := "Compute done! Result: " ++ toString computeResult
    status := 200 }

/-- Handler of `GET /db` (`fake_db` in app.py); `d1`, `d2` are the random
sleep durations of the query and update sub-operations. -/
def fake_db (d1 d2 : Nat) : HandlerResult :=
  { events :=
      [.startSpan "db-span",
       .log .info "Start fake DB operation",
       .startSpan "query-span",
       .sleep d1,
       .log .info "DB query completed",
       .endSpan .unset,
       .startSpan "update-span",
       .sleep d2,
       .log .info "DB update completed",
       .endSpan .unset,
       .endSpan .unset]
    body := "DB operation executed!"
    status := 200 }

/-- Handler of `GET /error` (`error_route` in app.py).  The division `1 / 0`
raises `ZeroDivisionError`, which the handler catches, logging the error and
returning the fixed diagnostic with status 500.  The `.ok` branch is the
unreachable fall-through of the Python `try` body (the function would return
`None`, which Flask turns into a 500). -/
def error_route : HandlerResult :=
  match pyDiv 1 0 with
  | .error e =>
      { events :=
          [.startSpan "error-span",
           .log .error ("An error occurred: " ++ e),
           .endSpan .unset]
        body := "Error route triggered, check OTEL logs."
        status := 500 }
  | .ok _ =>
      { events := [.startSpan "error-span", .endSpan .unset]
        body := ""
        status := 500 }

/-- Handler of `GET /order` (`order` in app.py); `d` is the random
processing time. -/
def order (d : Nat) : HandlerResult :=
  { events :=
      [.startSpan "order-span",
       .sleep d,
       .metric (.counterAdd "orders_total" 1 [("status", "success")]),
       .log .info "Order placed successfully",
       .endSpan .unset]
    body := "Order placed!"
    status := 200 }

/-- Handler of `GET /pay` (`pay` in app.py): a uniform 50% coin decides
between failure (counter increment, error log, 500) and success (info log,
200). -/
def pay (seed : Nat) : HandlerResult :=
  if pyChoiceBool seed then
    { events :=
        [.startSpan "payment-span",
         .metric (.counterAdd "payment_failures_total" 1 [("provider", "BankX")]),
         .log .error "Payment failed with BankX",
         .endSpan .unset]
      body := "Payment failed"
      status := 500 }
  else
    { events :=
        [.startSpan "payment-span",
         .log .info "Payment succeeded with BankX",
         .endSpan .unset]
      body := "Payment success!"
      status := 200 }

/-- Handler of `GET /checkout` (`checkout` in app.py): draws
`cart_size = random.randint(1, 10)`, records it into the cart-size histogram
and reports it in the body. -/
def checkout (seed : Nat) : HandlerResult :=
  let cart_size := pyRandint 1 10 seed
  { events :=
      [.startSpan "checkout-span",
       .metric (.histRecord "cart_size" (cart_size : Int) [("currency", "USD")]),
       .log .info ("Checkout with " ++ toString cart_size ++ " items"),
       .endSpan .unset]
    body := "Checkout complete with " ++ toString cart_size ++ " items!"
    status := 200 }

/-- Handler of `GET /buy` (`buy` in app.py): draws
`amount = random.choice([100, 200, 500])` and adds it to the revenue
counter. -/
def buy (seed : Nat) : HandlerResult :=
  let amount := pyChoice3 seed
  { events :=
      [.startSpan "buy-span",
       .metric (.counterAdd "revenue_total" (amount : Int) [("currency", "USD")]),
       .log .info ("Purchase completed: $" ++ toString amount),
       .endSpan .unset]
    body := "Purchase complete! Amount: $" ++ toString amount
    status := 200 }

/-- The routes registered on the Flask app. -/
inductive Route where
  | root
  | computeR
  | dbR
  | errorR
  | orderR
  | payR
  | checkoutR
  | buyR
deriving DecidableEq, Repr

/-- `request.path` for each route. -/
def routePath : Route → String
  | .root => "/"
  | .computeR => "/compute"
  | .dbR => "/db"
  | .errorR => "/error"
  | .orderR => "/order"
  | .payR => "/pay"
  | .checkoutR => "/checkout"
  | .buyR => "/buy"

/-- Dispatch to the handler of a route.  `seed` drives the handler's random
choice (coin / randint / choice), `d1` and `d2` its random sleep durations. -/
def routeHandler (route : Route) (seed d1 d2 : Nat) : HandlerResult :=
  match route with
  | .root => hello
  | .computeR => compute d1
  | .dbR => fake_db d1 d2
  | .errorR => error_route
  | .orderR => order d1
  | .payR => pay seed
  | .checkoutR => checkout seed
  | .buyR => buy seed

/-- Result of processing one full request through the middleware pipeline. -/
structure RequestResult where
  status : Nat
  body : String
  spans : List Span
  logs : List LogRecord
  ops : List MetricOp
  startTime : Nat
  afterTime : Nat
  duration : Int
deriving Repr

/-- The initial interpreter state at wall-clock time `t0`. -/
def initState (t0 : Nat) : TState :=
  { clock := t0, nextSpanId := 0, stack := [], spans := [], logs := [], ops := [] }

/-- Processing of one inbound request.

The root span open/close and its error status are modelled from the spec
(RequestInstrumentationMiddleware, realised by `FlaskInstrumentor` whose code
is not in the repository): a root span named after the route is opened before
the handler and ended after it, marked with error status exactly when the
response is a 5xx.  The rest is embedded from app.py: `before_request`
records `request.start_time`; the handler runs; `after_request` computes
`duration = now - start_time`, increments `request_counter` by 1 with labels
`{method, endpoint=request.path}` and records `duration` into
`latency_histogram` with the same labels. -/
def processRequest (tid : Nat) (route : Route) (seed d1 d2 t0 : Nat) : RequestResult :=
  let s1 := step tid (initState t0) (.startSpan (routePath route))
  let startTime := s1.clock
  let h := routeHandler route seed d1 d2
  let s2 := run tid s1 h.events
  let afterTime := s2.clock
  let duration : Int := (afterTime : Int) - (startTime : Int)
  let labels := [("method", "GET"), ("endpoint", routePath route)]
  let s3 := run tid s2
      [.metric (.counterAdd "http_requests_total" 1 labels),
       .metric (.histRecord "http_request_duration_seconds" duration labels)]
  let rootStatus := if 500 ≤ h.status then SpanStatus.error else SpanStatus.unset
  let s4 := step tid s3 (.endSpan rootStatus)
  { status := h.status, body := h.body, spans := s4.spans, logs := s4.logs,
    ops := s4.ops, startTime := startTime, afterTime := afterTime,
    duration := duration }

/-- Contribution of one metric operation to the counter `name` with label
set `labels`. -/
def counterIncr (name : String) (labels : List (String × String)) : MetricOp → Int
  | .counterAdd n a l => if n = name ∧ l = labels then a else 0
  | .histRecord _ _ _ => 0

/-- Accumulated value of the counter `name` with label set `labels` over a
list of metric operations. -/
def counterTotal (name : String) (labels : List (String × String)) (ops : List MetricOp) : Int :=
  (ops.map (counterIncr name labels)).sum

/-- The values recorded into the histogram `name` with label set `labels`
over a list of metric operations. -/
def histValues (name : String) (labels : List (String × String)) (ops : List MetricOp) : List Int :=
  ops.filterMap
    (fun op =>
      match op with
      | .counterAdd _ _ _ => none
      | .histRecord n v l => if n = name ∧ l = labels then some v else none)

/-- Number of error-severity records in a list of logs. -/
def errorLogCount (logs : List LogRecord) : Nat :=
  logs.countP (fun lr => lr.sev == Severity.error)

/-- Modelled from the spec: the state of a generic BatchExportProcessor
(`BatchSpanProcessor` / `BatchLogRecordProcessor`, whose code is not part of
the repository): a buffer of pending records and the batches handed to the
exporter so far, with a size trigger `maxBatchSize`. -/
structure BatchProc (α : Type) where
  maxBatchSize : Nat
  buffer : List α
  exports : List (List α)

/-- Modelled from the spec: `enqueue(record)` appends the record to the
buffer; when the buffer length reaches `maxBatchSize` the background loop
wakes, atomically swaps the buffer for an empty one and hands the batch to
the exporter. -/
def enqueue {α : Type} (p : BatchProc α) (r : α) : BatchProc α :=
  let buf := p.buffer ++ [r]
  if buf.length = p.maxBatchSize then
    { p with buffer := [], exports := p.exports ++ [buf] }
  else
    { p with buffer := buf }

/-- Enqueue a sequence of records in order. -/
def enqueueAll {α : Type} (p : BatchProc α) (rs : List α) : BatchProc α :=
  rs.foldl enqueue p

/-- Modelled from the spec: the flush performed when `scheduledDelay` elapses
after the last enqueue — any pending records are exported as one final
batch. -/
def finalFlush {α : Type} (p : BatchProc α) : BatchProc α :=
  match p.buffer with
  | [] => p
  | b :: bs => { p with buffer := [], exports := p.exports ++ [b :: bs] }

/-- A fresh processor with size trigger `B`. -/
def initProc {α : Type} (B : Nat) : BatchProc α :=
  { maxBatchSize := B, buffer := [], exports := [] }

end OtelFlask

/-! ### Helper lemmas -/

namespace OtelFlask

/-- `random.choice([100, 200, 500])` yields one of the three amounts. -/
theorem pyChoice3_cases (seed : Nat) :
    pyChoice3 seed = 100 ∨ pyChoice3 seed = 200 ∨ pyChoice3 seed = 500 := by
  have h : seed % 3 = 0 ∨ seed % 3 = 1 ∨ seed % 3 = 2 := by omega
  rcases h with h | h | h <;> simp [pyChoice3, h]

/-- A counter's accumulated value over concatenated operation lists is the
sum of the accumulated values. -/
theorem counterTotal_append (name : String) (labels : List (String × String))
    (l1 l2 : List MetricOp) :
    counterTotal name labels (l1 ++ l2) =
      counterTotal name labels l1 + counterTotal name labels l2 := by
  simp [counterTotal]

/-- An operation whose counter increments are all non-negative contributes a
non-negative amount to any counter. -/
theorem counterIncr_nonneg (name : String) (labels : List (String × String))
    (op : MetricOp) (h : ∀ n a l, op = MetricOp.counterAdd n a l → 0 ≤ a) :
    0 ≤ counterIncr name labels op := by
  cases op with
  | counterAdd n a l =>
      have ha := h n a l rfl
      simp only [counterIncr]
      split
      · exact ha
      · exact le_refl 0
  | histRecord n v l => simp [counterIncr]

/-- If every counter increment in a list of operations is non-negative, the
accumulated value of any counter over the list is non-negative. -/
theorem counterTotal_nonneg (name : String) (labels : List (String × String))
    (l : List MetricOp) (h : ∀ op ∈ l, ∀ n a lab, op = MetricOp.counterAdd n a lab → 0 ≤ a) :
    0 ≤ counterTotal name labels l := by
  unfold counterTotal
  apply List.sum_nonneg
  intro x hx
  simp only [List.mem_map] at hx
  obtain ⟨op, hop, rfl⟩ := hx
  exact counterIncr_nonneg name labels op (h op hop)

/-- Invariant of the batch processor: enqueueing `rs` into a processor whose
buffer is below the size trigger preserves the trigger, leaves
`(buffered + new) % B` records in the buffer, performs
`(buffered + new) / B` additional exports, and loses or reorders nothing. -/
theorem enqueueAll_inv {α : Type} (B : Nat) (hB : 0 < B) (rs : List α) :
    ∀ p : BatchProc α, p.maxBatchSize = B → p.buffer.length < B →
      (enqueueAll p rs).maxBatchSize = B ∧
      (enqueueAll p rs).buffer.length = (p.buffer.length + rs.length) % B ∧
      (enqueueAll p rs).exports.length = p.exports.length + (p.buffer.length + rs.length) / B ∧
      (enqueueAll p rs).exports.flatten ++ (enqueueAll p rs).buffer =
        p.exports.flatten ++ p.buffer ++ rs := by
  induction rs with
  | nil =>
      intro p hM hLt
      refine ⟨hM, ?_, ?_, by simp [enqueueAll]⟩
      · simp [enqueueAll, Nat.mod_eq_of_lt hLt]
      · simp [enqueueAll, Nat.div_eq_of_lt hLt]
  | cons r rs ih =>
      intro p hM hLt
      have hstep : enqueueAll p (r :: rs) = enqueueAll (enqueue p r) rs := rfl
      by_cases hfull : p.buffer.length + 1 = B
      · have henq : enqueue p r =
            { p with buffer := [], exports := p.exports ++ [p.buffer ++ [r]] } := by
          unfold enqueue
          rw [if_pos]
          simp [hM, hfull]
        obtain ⟨h1, h2, h3, h4⟩ := ih (enqueue p r) (by rw [henq]; exact hM)
          (by rw [henq]; simpa using hB)
        rw [hstep]
        refine ⟨h1, ?_, ?_, ?_⟩
        · rw [h2, henq]
          simp only [List.length_nil]
          have harg : p.buffer.length + (r :: rs).length = B + rs.length := by
            simp at *
            omega
          rw [harg, Nat.add_mod_left]
          simp
        · rw [h3, henq]
          simp only [List.length_nil, List.length_append, List.length_cons]
          have harg : p.buffer.length + (rs.length + 1) = rs.length + B := by omega
          rw [harg, Nat.add_div_right _ hB]
          simp
          omega
        · rw [h4, henq]
          simp
      · have hlt : (p.buffer ++ [r]).length ≠ p.maxBatchSize := by
          simp [hM]
          omega
        have henq : enqueue p r = { p with buffer := p.buffer ++ [r] } := by
          unfold enqueue
          rw [if_neg hlt]
        obtain ⟨h1, h2, h3, h4⟩ := ih (enqueue p r) (by rw [henq]; exact hM)
          (by rw [henq]; simp; omega)
        rw [hstep]
        refine ⟨h1, ?_, ?_, ?_⟩
        · rw [h2, henq]
          simp only [List.length_append, List.length_cons]
          congr 1
          simp
          omega
        · rw [h3, henq]
          simp only [List.length_append, List.length_cons]
          congr 2
          simp
          omega
        · rw [h4, henq]
          simp

/-- Ceiling division, written `(N + B - 1) / B`, splits as floor division
plus one extra batch exactly when the division is inexact. -/
theorem ceil_div_spec (B N : Nat) (hB : 0 < B) :
    (N + B - 1) / B = N / B + (if N % B = 0 then 0 else 1) := by
  have hdm := Nat.div_add_mod N B
  have hrB : N % B < B := Nat.mod_lt _ hB
  by_cases h0 : N % B = 0
  · have h1 : B * (N / B) + (B - 1) = N + B - 1 := by
      generalize B * (N / B) = m at hdm ⊢
      omega
    rw [← h1, Nat.mul_add_div hB, Nat.div_eq_of_lt (by omega : B - 1 < B)]
    simp [h0]
  · have h1 : B * (N / B + 1) + (N % B - 1) = N + B - 1 := by
      rw [Nat.mul_add, Nat.mul_one]
      generalize B * (N / B) = m at hdm ⊢
      omega
    rw [← h1, Nat.mul_add_div hB, Nat.div_eq_of_lt (by omega : N % B - 1 < B)]
    simp [h0]

/-! ### Claims -/

/-- C1: every request to `GET /error` returns status 500 with the fixed
diagnostic body "Error route triggered, check OTEL logs.", the fault is a
division by zero, exactly one log is emitted and it has error severity, and
the root span of the request is marked with error status. -/
theorem C1_error_route (tid seed d1 d2 t0 : Nat) :
    (processRequest tid .errorR seed d1 d2 t0).status = 500 ∧
    (processRequest tid .errorR seed d1 d2 t0).body =
      "Error route triggered, check OTEL logs." ∧
    pyDiv 1 0 = Except.error "division by zero" ∧
    errorLogCount (processRequest tid .errorR seed d1 d2 t0).logs = 1 ∧
    (processRequest tid .errorR seed d1 d2 t0).logs.length = 1 ∧
    ∃ s ∈ (processRequest tid .errorR seed d1 d2 t0).spans,
      s.parentSpanId = none ∧ s.name = routePath .errorR ∧
      s.status = SpanStatus.error := by
  simp [processRequest, routeHandler, error_route, pyDiv, run, step, initState, routePath,
    errorLogCount, List.countP, List.countP.go]
  decide

/-- C1 witness: the property instantiated at a concrete request. -/
theorem C1_error_route_witness :
    (processRequest 1 .errorR 0 0 0 0).status = 500 ∧
    (processRequest 1 .errorR 0 0 0 0).body =
      "Error route triggered, check OTEL logs." ∧
    pyDiv 1 0 = Except.error "division by zero" ∧
    errorLogCount (processRequest 1 .errorR 0 0 0 0).logs = 1 ∧
    (processRequest 1 .errorR 0 0 0 0).logs.length = 1 ∧
    ∃ s ∈ (processRequest 1 .errorR 0 0 0 0).spans,
      s.parentSpanId = none ∧ s.name = routePath .errorR ∧
      s.status = SpanStatus.error :=
  C1_error_route 1 0 0 0 0

/-- C2: for every route and every request, the request counter
`http_requests_total` with labels `{method, endpoint}` accumulates exactly 1
over the request, whether the handler returned normally or faulted. -/
theorem C2_request_counter (route : Route) (tid seed d1 d2 t0 : Nat) :
    counterTotal "http_requests_total" [("method", "GET"), ("endpoint", routePath route)]
      (processRequest tid route seed d1 d2 t0).ops = 1 := by
  cases route <;>
    simp [processRequest, routeHandler, hello, compute, fake_db, error_route, order, pay,
      checkout, buy, pyDiv, run, step, initState, routePath, counterTotal, counterIncr]
  rcases Bool.eq_false_or_eq_true (pyChoiceBool seed) with h | h <;>
    simp [h, run, step, counterTotal, counterIncr]

/-- C2 witness: the counter increment at a concrete request to the faulting
route. -/
theorem C2_request_counter_witness :
    counterTotal "http_requests_total" [("method", "GET"), ("endpoint", routePath .errorR)]
      (processRequest 1 .errorR 0 0 0 0).ops = 1 :=
  C2_request_counter .errorR 1 0 0 0 0

/-- C3: every request to `GET /pay` returns 200 or 500 as the two outcomes of
the uniform coin; 500 holds exactly when the payment-failure counter
accumulates 1 and one error log is emitted, and a 200 response leaves the
payment-failure counter at 0.  Even seeds give 500 and odd seeds give 200, so
both outcomes occur. -/
theorem C3_pay_route (tid seed d1 d2 t0 : Nat) :
    ((processRequest tid .payR seed d1 d2 t0).status = 200 ∨
      (processRequest tid .payR seed d1 d2 t0).status = 500) ∧
    ((processRequest tid .payR seed d1 d2 t0).status = 500 ↔
      counterTotal "payment_failures_total" [("provider", "BankX")]
          (processRequest tid .payR seed d1 d2 t0).ops = 1 ∧
        errorLogCount (processRequest tid .payR seed d1 d2 t0).logs = 1) ∧
    ((processRequest tid .payR seed d1 d2 t0).status = 200 →
      counterTotal "payment_failures_total" [("provider", "BankX")]
          (processRequest tid .payR seed d1 d2 t0).ops = 0) ∧
    (processRequest tid .payR (2 * seed) d1 d2 t0).status = 500 ∧
    (processRequest tid .payR (2 * seed + 1) d1 d2 t0).status = 200 := by
  have h2s : pyChoiceBool (2 * seed) = true := by
    simp [pyChoiceBool] <;> omega
  have h2s1 : pyChoiceBool (2 * seed + 1) = false := by
    simp [pyChoiceBool] <;> omega
  rcases Bool.eq_false_or_eq_true (pyChoiceBool seed) with h | h <;>
    simp [processRequest, routeHandler, pay, h, h2s, h2s1, run, step, initState, routePath,
      counterTotal, counterIncr, errorLogCount, List.countP, List.countP.go] <;> decide

/-- C3 witness: the pay-route property at a concrete request. -/
theorem C3_pay_route_witness :
    ((processRequest 1 .payR 0 0 0 0).status = 200 ∨
      (processRequest 1 .payR 0 0 0 0).status = 500) ∧
    ((processRequest 1 .payR 0 0 0 0).status = 500 ↔
      counterTotal "payment_failures_total" [("provider", "BankX")]
          (processRequest 1 .payR 0 0 0 0).ops = 1 ∧
        errorLogCount (processRequest 1 .payR 0 0 0 0).logs = 1) ∧
    ((processRequest 1 .payR 0 0 0 0).status = 200 →
      counterTotal "payment_failures_total" [("provider", "BankX")]
          (processRequest 1 .payR 0 0 0 0).ops = 0) ∧
    (processRequest 1 .payR (2 * 0) 0 0 0).status = 500 ∧
    (processRequest 1 .payR (2 * 0 + 1) 0 0 0).status = 200 :=
  C3_pay_route 1 0 0 0 0

/-- C4: for every request the middleware records `startTime` when the request
begins, and after the handler completes it computes
`duration = afterTime - startTime`, accumulates 1 into the request counter
and records exactly `duration` into the latency histogram, both with the same
label set `{method, endpoint}`, and the root span (named after the route,
with no parent) is ended no earlier than every other span of the request. -/
theorem C4_middleware_metrics (route : Route) (tid seed d1 d2 t0 : Nat) :
    (processRequest tid route seed d1 d2 t0).duration =
      ((processRequest tid route seed d1 d2 t0).afterTime : Int) -
        ((processRequest tid route seed d1 d2 t0).startTime : Int) ∧
    counterTotal "http_requests_total" [("method", "GET"), ("endpoint", routePath route)]
      (processRequest tid route seed d1 d2 t0).ops = 1 ∧
    histValues "http_request_duration_seconds"
        [("method", "GET"), ("endpoint", routePath route)]
        (processRequest tid route seed d1 d2 t0).ops =
      [(processRequest tid route seed d1 d2 t0).duration] ∧
    ∃ s ∈ (processRequest tid route seed d1 d2 t0).spans,
      s.name = routePath route ∧ s.parentSpanId = none ∧
      s.startTime ≤ (processRequest tid route seed d1 d2 t0).startTime ∧
      (processRequest tid route seed d1 d2 t0).startTime ≤
        (processRequest tid route seed d1 d2 t0).afterTime ∧
      ∀ t ∈ (processRequest tid route seed d1 d2 t0).spans, t.endTime ≤ s.endTime := by
  cases route
  case payR =>
    rcases Bool.eq_false_or_eq_true (pyChoiceBool seed) with h | h <;>
      simp [processRequest, routeHandler, pay, h, run, step, initState, routePath,
        counterTotal, counterIncr, histValues] <;>
      omega
  all_goals
    simp [processRequest, routeHandler, hello, compute, fake_db, error_route, order,
      checkout, buy, pyDiv, run, step, initState, routePath, counterTotal, counterIncr,
      histValues] <;>
    omega

/-- C4 witness: the middleware guarantees at a concrete request to `/order`. -/
theorem C4_middleware_metrics_witness :
    (processRequest 2 .orderR 3 4 5 6).duration =
      ((processRequest 2 .orderR 3 4 5 6).afterTime : Int) -
        ((processRequest 2 .orderR 3 4 5 6).startTime : Int) ∧
    counterTotal "http_requests_total" [("method", "GET"), ("endpoint", routePath .orderR)]
      (processRequest 2 .orderR 3 4 5 6).ops = 1 ∧
    histValues "http_request_duration_seconds"
        [("method", "GET"), ("endpoint", routePath .orderR)]
        (processRequest 2 .orderR 3 4 5 6).ops =
      [(processRequest 2 .orderR 3 4 5 6).duration] ∧
    ∃ s ∈ (processRequest 2 .orderR 3 4 5 6).spans,
      s.name = routePath .orderR ∧ s.parentSpanId = none ∧
      s.startTime ≤ (processRequest 2 .orderR 3 4 5 6).startTime ∧
      (processRequest 2 .orderR 3 4 5 6).startTime ≤
        (processRequest 2 .orderR 3 4 5 6).afterTime ∧
      ∀ t ∈ (processRequest 2 .orderR 3 4 5 6).spans, t.endTime ≤ s.endTime :=
  C4_middleware_metrics .orderR 2 3 4 5 6

set_option maxRecDepth 40000 in
/-- C5: every request to `GET /compute` returns 200 with a body containing
the deterministic value `sum(i * i for i in range(1, 1000)) = 332833500`,
the request has exactly one root span, and exactly two info-level logs are
emitted: the start log and the result log. -/
theorem C5_compute_route (tid seed d1 d2 t0 : Nat) :
    (processRequest tid .computeR seed d1 d2 t0).status = 200 ∧
    (processRequest tid .computeR seed d1 d2 t0).body =
      "Compute done! Result: " ++ toString computeResult ∧
    computeResult = 332833500 ∧
    ((processRequest tid .computeR seed d1 d2 t0).spans.countP
        (fun s => s.parentSpanId == none)) = 1 ∧
    (processRequest tid .computeR seed d1 d2 t0).logs.map (fun lr => (lr.sev, lr.body)) =
      [(Severity.info, "Start compute simulation"),
       (Severity.info, "Compute result: " ++ toString computeResult)] := by
  refine ⟨?_, ?_, by decide, ?_, ?_⟩ <;>
    simp [processRequest, routeHandler, compute, run, step, initState, routePath,
      List.countP, List.countP.go]

/-- C5 witness: the compute-route property at a concrete request. -/
theorem C5_compute_route_witness :
    (processRequest 1 .computeR 0 7 0 0).status = 200 ∧
    (processRequest 1 .computeR 0 7 0 0).body =
      "Compute done! Result: " ++ toString computeResult ∧
    computeResult = 332833500 ∧
    ((processRequest 1 .computeR 0 7 0 0).spans.countP
        (fun s => s.parentSpanId == none)) = 1 ∧
    (processRequest 1 .computeR 0 7 0 0).logs.map (fun lr => (lr.sev, lr.body)) =
      [(Severity.info, "Start compute simulation"),
       (Severity.info, "Compute result: " ++ toString computeResult)] :=
  C5_compute_route 1 0 7 0 0

/-- C6 counterexample: in the trace of a concrete request to `GET /db` no
span at all is named "query" or "update" (the handler names its nested spans
"query-span" and "update-span"), so the claim that the two nested child
spans are named "query" and "update" is false. -/
theorem C6_counterexample :
    (processRequest 1 .dbR 0 0 0 0).spans.countP (fun s => s.name == "query") = 0 ∧
    (processRequest 1 .dbR 0 0 0 0).spans.countP (fun s => s.name == "update") = 0 ∧
    (processRequest 1 .dbR 0 0 0 0).spans.length = 4 := by
  decide

/-- C6 (amended): every request to `GET /db` returns 200 and emits exactly
three info-level logs; its trace has a root span (no parent, named after the
route) containing the handler span "db-span", whose two nested child spans
are named "query-span" and "update-span" and carry a parent-span-id equal to
db-span's span-id; the root span's end timestamp is ≥ the end timestamps of
both child spans (and of db-span). -/
theorem C6_db_route_amended (tid seed d1 d2 t0 : Nat) :
    (processRequest tid .dbR seed d1 d2 t0).status = 200 ∧
    (processRequest tid .dbR seed d1 d2 t0).logs.map (fun lr => lr.sev) =
      [Severity.info, Severity.info, Severity.info] ∧
    ∃ root ∈ (processRequest tid .dbR seed d1 d2 t0).spans,
      root.parentSpanId = none ∧ root.name = routePath .dbR ∧
      ∃ dbs ∈ (processRequest tid .dbR seed d1 d2 t0).spans,
        dbs.name = "db-span" ∧ dbs.parentSpanId = some root.spanId ∧
        ∃ q ∈ (processRequest tid .dbR seed d1 d2 t0).spans,
          ∃ u ∈ (processRequest tid .dbR seed d1 d2 t0).spans,
            q.name = "query-span" ∧ u.name = "update-span" ∧
            q.parentSpanId = some dbs.spanId ∧ u.parentSpanId = some dbs.spanId ∧
            q.endTime ≤ root.endTime ∧ u.endTime ≤ root.endTime ∧
            dbs.endTime ≤ root.endTime := by
  refine ⟨?_, ?_, ?_⟩ <;>
    simp [processRequest, routeHandler, fake_db, run, step, initState, routePath] <;>
    omega

/-- C6 witness: the amended property at a concrete request. -/
theorem C6_db_route_amended_witness :
    (processRequest 1 .dbR 0 2 3 10).status = 200 ∧
    (processRequest 1 .dbR 0 2 3 10).logs.map (fun lr => lr.sev) =
      [Severity.info, Severity.info, Severity.info] ∧
    ∃ root ∈ (processRequest 1 .dbR 0 2 3 10).spans,
      root.parentSpanId = none ∧ root.name = routePath .dbR ∧
      ∃ dbs ∈ (processRequest 1 .dbR 0 2 3 10).spans,
        dbs.name = "db-span" ∧ dbs.parentSpanId = some root.spanId ∧
        ∃ q ∈ (processRequest 1 .dbR 0 2 3 10).spans,
          ∃ u ∈ (processRequest 1 .dbR 0 2 3 10).spans,
            q.name = "query-span" ∧ u.name = "update-span" ∧
            q.parentSpanId = some dbs.spanId ∧ u.parentSpanId = some dbs.spanId ∧
            q.endTime ≤ root.endTime ∧ u.endTime ≤ root.endTime ∧
            dbs.endTime ≤ root.endTime :=
  C6_db_route_amended 1 0 2 3 10

/-- C7: every log record emitted during a request is correlated to a span of
that request that was open at the emission time (it carries that span's
trace-id and span-id); moreover the log-emission step stamps empty
correlation fields exactly when no span is active, and stamps the active
span's (trace-id, span-id) when one is. -/
theorem C7_log_correlation (route : Route) (tid seed d1 d2 t0 : Nat) :
    (∀ lr ∈ (processRequest tid route seed d1 d2 t0).logs,
       ∃ s ∈ (processRequest tid route seed d1 d2 t0).spans,
         lr.corr = some (tid, s.spanId) ∧ s.startTime ≤ lr.time ∧ lr.time ≤ s.endTime) ∧
    (∀ st : TState, ∀ sv : Severity, ∀ bd : String, st.stack = [] →
       (step tid st (.log sv bd)).logs = st.logs ++ [⟨sv, bd, st.clock, none⟩]) ∧
    (∀ st : TState, ∀ sv : Severity, ∀ bd : String, ∀ o os, st.stack = o :: os →
       (step tid st (.log sv bd)).logs =
         st.logs ++ [⟨sv, bd, st.clock, some (tid, o.spanId)⟩]) := by
  refine ⟨?_, ?_, ?_⟩
  · cases route
    case payR =>
      rcases Bool.eq_false_or_eq_true (pyChoiceBool seed) with h | h <;>
        simp [processRequest, routeHandler, pay, h, run, step, initState, routePath]
    all_goals
      simp [processRequest, routeHandler, hello, compute, fake_db, error_route, order,
        checkout, buy, pyDiv, run, step, initState, routePath] <;>
      omega
  · intro st sv bd h
    simp [step, h]
  · intro st sv bd o os h
    simp [step, h]

/-- C7 witness: the `/db` request emits three logs, and the correlation
property holds for it. -/
theorem C7_log_correlation_witness :
    (processRequest 1 .dbR 0 0 0 0).logs.length = 3 ∧
    ((∀ lr ∈ (processRequest 1 .dbR 0 0 0 0).logs,
        ∃ s ∈ (processRequest 1 .dbR 0 0 0 0).spans,
          lr.corr = some (1, s.spanId) ∧ s.startTime ≤ lr.time ∧ lr.time ≤ s.endTime) ∧
      (∀ st : TState, ∀ sv : Severity, ∀ bd : String, st.stack = [] →
        (step 1 st (.log sv bd)).logs = st.logs ++ [⟨sv, bd, st.clock, none⟩]) ∧
      (∀ st : TState, ∀ sv : Severity, ∀ bd : String, ∀ o os, st.stack = o :: os →
        (step 1 st (.log sv bd)).logs =
          st.logs ++ [⟨sv, bd, st.clock, some (1, o.spanId)⟩])) :=
  ⟨by decide, C7_log_correlation .dbR 1 0 0 0 0⟩

/-- C8: in every request, every counter increment issued by any code path is
positive; the request, orders and payment-failure counters are incremented
only by 1; and consequently the accumulated value of any counter never
decreases as the request's metric operations accumulate. -/
theorem C8_counter_monotone (route : Route) (tid seed d1 d2 t0 : Nat) :
    (∀ n a l, MetricOp.counterAdd n a l ∈ (processRequest tid route seed d1 d2 t0).ops →
       0 < a) ∧
    (∀ a l,
       (MetricOp.counterAdd "http_requests_total" a l ∈
           (processRequest tid route seed d1 d2 t0).ops ∨
         MetricOp.counterAdd "orders_total" a l ∈
           (processRequest tid route seed d1 d2 t0).ops ∨
         MetricOp.counterAdd "payment_failures_total" a l ∈
           (processRequest tid route seed d1 d2 t0).ops) →
       a = 1) ∧
    (∀ name labels l1 l2, (processRequest tid route seed d1 d2 t0).ops = l1 ++ l2 →
       counterTotal name labels l1 ≤
         counterTotal name labels (processRequest tid route seed d1 d2 t0).ops) := by
  have hpos : ∀ n a l, MetricOp.counterAdd n a l ∈ (processRequest tid route seed d1 d2 t0).ops →
      0 < a := by
    cases route
    case payR =>
      rcases Bool.eq_false_or_eq_true (pyChoiceBool seed) with h | h <;>
        simp [processRequest, routeHandler, pay, h, run, step, initState, routePath] <;>
        omega
    case orderR =>
      simp [processRequest, routeHandler, order, run, step, initState, routePath]
      rintro n a l (⟨h1, h2, h3⟩ | ⟨h1, h2, h3⟩) <;> omega
    case buyR =>
      rcases pyChoice3_cases seed with h | h | h <;>
        simp [processRequest, routeHandler, buy, h, run, step, initState, routePath] <;>
        rintro n a l (⟨h1, h2, h3⟩ | ⟨h1, h2, h3⟩) <;> omega
    all_goals
      simp [processRequest, routeHandler, hello, compute, fake_db, error_route,
        checkout, pyDiv, run, step, initState, routePath] <;>
      (intro n a l h1 h2 h3; omega)
  refine ⟨hpos, ?_, ?_⟩
  · cases route
    case payR =>
      rcases Bool.eq_false_or_eq_true (pyChoiceBool seed) with h | h <;>
        simp [processRequest, routeHandler, pay, h, run, step, initState, routePath]
      rintro a l (⟨h1, h2⟩ | ⟨h1, h2⟩) <;> omega
    case orderR =>
      simp [processRequest, routeHandler, order, run, step, initState, routePath]
      rintro a l (⟨h1, h2⟩ | ⟨h1, h2⟩) <;> omega
    all_goals
      simp [processRequest, routeHandler, hello, compute, fake_db, error_route,
        checkout, buy, pyDiv, run, step, initState, routePath]
  · intro name labels l1 l2 hsplit
    rw [hsplit, counterTotal_append]
    have h2 : 0 ≤ counterTotal name labels l2 := by
      apply counterTotal_nonneg
      intro op hop n a lab heq
      subst heq
      have hmem : MetricOp.counterAdd n a lab ∈ (processRequest tid route seed d1 d2 t0).ops := by
        rw [hsplit]
        exact List.mem_append_right _ hop
      exact le_of_lt (hpos n a lab hmem)
    omega

/-- C8 witness: the orders counter increment of a concrete `/order` request
is among the operations, and the monotonicity properties hold for it. -/
theorem C8_counter_monotone_witness :
    MetricOp.counterAdd "orders_total" 1 [("status", "success")] ∈
      (processRequest 1 .orderR 0 0 0 0).ops ∧
    ((∀ n a l, MetricOp.counterAdd n a l ∈ (processRequest 1 .orderR 0 0 0 0).ops →
        0 < a) ∧
      (∀ a l,
        (MetricOp.counterAdd "http_requests_total" a l ∈
            (processRequest 1 .orderR 0 0 0 0).ops ∨
          MetricOp.counterAdd "orders_total" a l ∈
            (processRequest 1 .orderR 0 0 0 0).ops ∨
          MetricOp.counterAdd "payment_failures_total" a l ∈
            (processRequest 1 .orderR 0 0 0 0).ops) →
        a = 1) ∧
      (∀ name labels l1 l2, (processRequest 1 .orderR 0 0 0 0).ops = l1 ++ l2 →
        counterTotal name labels l1 ≤
          counterTotal name labels (processRequest 1 .orderR 0 0 0 0).ops)) :=
  ⟨by decide, C8_counter_monotone .orderR 1 0 0 0 0⟩

/-- C9: enqueueing any sequence of records into a batch processor with size
trigger `B > 0` and flushing the remainder once the final scheduled delay
elapses produces exactly `ceil(N / B) = (N + B - 1) / B` export calls, and
the concatenation of the exported batches is the enqueued sequence in
enqueue order. -/
theorem C9_batch_export (α : Type) (records : List α) (B : Nat) (hB : 0 < B) :
    (finalFlush (enqueueAll (initProc B) records)).exports.length =
      (records.length + B - 1) / B ∧
    (finalFlush (enqueueAll (initProc B) records)).exports.flatten = records := by
  obtain ⟨hM, hbuf, hexp, hflat⟩ :=
    enqueueAll_inv B hB records (initProc B) rfl (by simpa [initProc] using hB)
  have e1 : (initProc B : BatchProc α).buffer = [] := rfl
  have e2 : (initProc B : BatchProc α).exports = [] := rfl
  rw [e1] at hbuf hexp
  rw [e2] at hexp hflat
  rw [e1] at hflat
  simp only [List.length_nil, List.flatten_nil, List.nil_append, Nat.zero_add]
    at hbuf hexp hflat
  rw [ceil_div_spec _ _ hB]
  cases hb : (enqueueAll (initProc B : BatchProc α) records).buffer with
  | nil =>
      have h0 : records.length % B = 0 := by rw [← hbuf, hb]; rfl
      rw [hb] at hflat
      constructor
      · simp [finalFlush, hb, hexp, h0]
      · simpa [finalFlush, hb] using hflat
  | cons x xs =>
      have h0 : ¬ records.length % B = 0 := by
        rw [← hbuf, hb]
        simp
      rw [hb] at hflat
      constructor
      · simp [finalFlush, hb, hexp, h0]
      · simp only [finalFlush, hb, List.flatten_append]
        simpa using hflat

/-- C9 witness: five records with batch size 2 give three export calls whose
concatenation is the enqueued sequence. -/
theorem C9_batch_export_witness :
    0 < 2 ∧
    ((finalFlush (enqueueAll (initProc 2) [10, 20, 30, 40, 50])).exports.length =
        (([10, 20, 30, 40, 50] : List Nat).length + 2 - 1) / 2 ∧
      (finalFlush (enqueueAll (initProc 2) [10, 20, 30, 40, 50])).exports.flatten =
        [10, 20, 30, 40, 50]) :=
  ⟨by decide, C9_batch_export Nat [10, 20, 30, 40, 50] 2 (by decide)⟩

/-- C10: every request to `GET /checkout` returns 200, records into the
cart-size histogram exactly one integer value between 1 and 10 inclusive,
and the item count reported in the response body equals the recorded
value. -/
theorem C10_checkout_route (tid seed d1 d2 t0 : Nat) :
    (processRequest tid .checkoutR seed d1 d2 t0).status = 200 ∧
    ∃ n : Nat, 1 ≤ n ∧ n ≤ 10 ∧
      histValues "cart_size" [("currency", "USD")]
          (processRequest tid .checkoutR seed d1 d2 t0).ops = [(n : Int)] ∧
      (processRequest tid .checkoutR seed d1 d2 t0).body =
        "Checkout complete with " ++ toString n ++ " items!" := by
  refine ⟨?_, pyRandint 1 10 seed, ?_, ?_, ?_, ?_⟩
  · simp [processRequest, routeHandler, checkout, run, step, initState, routePath]
  · simp [pyRandint]
  · simp only [pyRandint]
    omega
  · simp [processRequest, routeHandler, checkout, run, step, initState, routePath, histValues]
  · simp [processRequest, routeHandler, checkout, run, step, initState, routePath]

/-- C10 witness: the checkout property at a concrete request. -/
theorem C10_checkout_route_witness :
    (processRequest 1 .checkoutR 14 0 0 0).status = 200 ∧
    ∃ n : Nat, 1 ≤ n ∧ n ≤ 10 ∧
      histValues "cart_size" [("currency", "USD")]
          (processRequest 1 .checkoutR 14 0 0 0).ops = [(n : Int)] ∧
      (processRequest 1 .checkoutR 14 0 0 0).body =
        "Checkout complete with " ++ toString n ++ " items!" :=
  C10_checkout_route 1 14 0 0 0

end OtelFlask
